import Mathlib

/-!
Verification of the chat-statistics pipeline (`src/chat_statistics/stats.py`).

The Python module defines a class `ChatStatistics` with:
  * `rebuild_msg` — flatten a segmented message text to one string;
  * `msg_has_question` — a standalone "does this message contain a
    question" check;
  * `get_top_users` — build a question index over all messages and count
    replies to questions per sender;
  * `generate_word_cloud` — build a stop-word-filtered text blob and hand
    it to the word-cloud renderer.

External collaborators (the `hazm` sentence/word tokenizers
`sent_tokenize` / `word_tokenize`, the `hazm` `Normalizer`,
`arabic_reshaper.reshape`, `bidi.get_display`) are modelled as function
parameters.  Machine-level details (file IO, logging, the rendering
algorithm itself) are outside the embedding: the renderer invocation is
modelled by the option record and text the code passes to it.

Python exceptions (`KeyError` on a missing `text` / `from` key,
`TypeError` when iterating a non-sequence text value) are modelled by
`Except ChatError`; the spec groups these failures under the name
`MalformedMessageError`.
-/

namespace ChatStatistics

/-- Failure of a record to have the shape the code needs: a missing
`text` or `from` key, or a `text` value that is neither a string nor a
sequence.  The spec calls this `MalformedMessageError`. -/
inductive ChatError where
  | malformedMessage : ChatError
deriving DecidableEq

/-- One element of a segmented (non-string) Telegram message text: either
a bare string, or a sub-object which may or may not carry a `text` key
(`obj none` models a record with no `text` key). -/
inductive SubMsg where
  | str : String → SubMsg
  | obj : Option String → SubMsg
deriving DecidableEq

/-- The polymorphic `text` field of a message: a plain string, a sequence
of segments, or a value of some other, unrecognized shape (for example a
number), which the Python code cannot iterate. -/
inductive MsgText where
  | plain : String → MsgText
  | segmented : List SubMsg → MsgText
  | badShape : MsgText
deriving DecidableEq

/-- A message record of the chat export.  `none` in a field models the
absence of that key in the JSON record. -/
structure Message where
  id : Nat
  «from» : Option String
  reply_to_message_id : Option Nat
  text : Option MsgText
deriving DecidableEq

/-- The accumulator loop of `ChatStatistics.rebuild_msg`:
`msg_text = ''` then `msg_text += ...` over the sub-messages; a string
element is appended verbatim, a sub-object contributes its `text` value
when it has one and is skipped otherwise. -/
def rebuild_msg_loop (acc : String) : List SubMsg → String
  | [] => acc
  | .str s :: rest => rebuild_msg_loop (acc ++ s) rest
  | .obj (some t) :: rest => rebuild_msg_loop (acc ++ t) rest
  | .obj none :: rest => rebuild_msg_loop acc rest

/-- `ChatStatistics.rebuild_msg` (stats.py lines 35–43). -/
def rebuild_msg (sub_messages : List SubMsg) : String :=
  rebuild_msg_loop "" sub_messages

/-- Spec-side contribution of one segment, from §4.1 of the design: a
string verbatim, a record's `text` value, nothing otherwise. -/
def sub_msg_contrib : SubMsg → String
  | .str s => s
  | .obj (some t) => t
  | .obj none => ""

/-- Spec-side rebuild: in-order concatenation of the per-segment
contributions (§4.1). -/
def rebuild_spec : List SubMsg → String
  | [] => ""
  | sm :: rest => sub_msg_contrib sm ++ rebuild_spec rest

/-- Whether a sentence contains a question mark, ASCII `?` or Arabic
`؟` — the membership tests on lines 53 and 73 of stats.py. -/
def sentence_has_q (s : String) : Bool :=
  s.data.contains '?' || s.data.contains '؟'

/-- The text-normalization step shared by `msg_has_question` and the
index loop of `get_top_users`: if the `text` value is not a string it is
replaced by `rebuild_msg` of it (stats.py lines 48–49 and 68–69).  A
plain-string text is untouched; so are the other fields. -/
def rebuild_step (m : Message) : Message :=
  match m.text with
  | some (.segmented subs) => { m with text := some (.plain (rebuild_msg subs)) }
  | _ => m

/-- The string the scans tokenize after the rebuild step (the value of
`msg['text']` at line 51 / 71); `""` is a placeholder for the malformed
shapes, on which the code raises instead of reaching the tokenizer. -/
def msg_text_str (m : Message) : String :=
  match m.text with
  | some (.plain s) => s
  | some (.segmented subs) => rebuild_msg subs
  | _ => ""

/-- The sentence loop of `msg_has_question` (stats.py lines 52–56),
verbatim: sentences with no question mark hit `continue`; a sentence
with one falls off the end of the `if` and the loop merely moves on, so
both branches advance to the next sentence, and after the loop the
function returns `True`. -/
def question_sentence_scan : List String → Bool
  | [] => true
  | s :: rest =>
    if !(s.data.contains '?') && !(s.data.contains '؟') then
      question_sentence_scan rest
    else
      question_sentence_scan rest

/-- `ChatStatistics.msg_has_question` (stats.py lines 45–56).  `st` is
the external `sent_tokenize`.  The Python method mutates `msg['text']`
in place when it is not a string, so the result carries the updated
message alongside the boolean.  A missing `text` key raises `KeyError`
and a non-iterable text value raises `TypeError`; both are
`ChatError.malformedMessage` here. -/
def msg_has_question (st : String → List String) (m : Message) :
    Except ChatError (Bool × Message) :=
  match m.text with
  | none => .error .malformedMessage
  | some .badShape => .error .malformedMessage
  | some (.plain s) => .ok (question_sentence_scan (st s), m)
  | some (.segmented subs) =>
    .ok (question_sentence_scan (st (rebuild_msg subs)),
      { m with text := some (.plain (rebuild_msg subs)) })

/-- A sentence tokenizer for concrete evaluations: the whole text as one
sentence. -/
def st1 : String → List String := fun s => [s]

/-- A message with no question mark anywhere in its text. -/
def msgPlainNoQ : Message := ⟨1, some "A", none, some (.plain "hello")⟩
/-- One iteration of the first loop of `get_top_users` (stats.py lines
67–77): rebuild a non-string text in place, tokenize into sentences, and
decide whether any sentence carries a question mark (the inner
`continue` / set-flag / `break` loop is extensionally `List.any`).
Returns the updated message together with the question flag. -/
def question_scan (st : String → List String) (m : Message) :
    Except ChatError (Message × Bool) :=
  match m.text with
  | none => .error .malformedMessage
  | some .badShape => .error .malformedMessage
  | some (.plain s) => .ok (m, (st s).any sentence_has_q)
  | some (.segmented subs) =>
    .ok ({ m with text := some (.plain (rebuild_msg subs)) },
      (st (rebuild_msg subs)).any sentence_has_q)

/-- The first loop of `get_top_users` (stats.py lines 66–77): the
`is_question` defaultdict is modelled by the list of message ids flagged
`True` (lookups of any other id give the default `False`).  The loop
also returns the message list as it stands after the loop, since the
rebuild assignments mutate `self.chat_data` in place. -/
def build_question_index (st : String → List String) :
    List Message → Except ChatError (List Nat × List Message)
  | [] => .ok ([], [])
  | m :: rest =>
    match question_scan st m with
    | .error e => .error e
    | .ok (m', q) =>
      match build_question_index st rest with
      | .error e => .error e
      | .ok (ids, rest') =>
        .ok ((if q then m.id :: ids else ids), m' :: rest')

/-- The guard of the second loop of `get_top_users` (stats.py lines
83–86): the message is skipped unless `msg.get('reply_to_message_id')`
is truthy (present and non-zero, since `0` is falsy in Python) and the
target id is flagged in the question index. -/
def casts_vote (ids : List Nat) (m : Message) : Bool :=
  match m.reply_to_message_id with
  | none => false
  | some r => !(r == 0) && ids.contains r

/-- Whether a message replies to the message id `r`. -/
def replies_to (m : Message) (r : Nat) : Bool :=
  m.reply_to_message_id == some r

/-- The second loop of `get_top_users` (stats.py lines 81–88): collect
`msg['from']` of every message replying to a flagged question, in order.
A qualifying message with no `from` key raises `KeyError`, modelled as
`ChatError.malformedMessage`. -/
def collect_votes (ids : List Nat) : List Message → Except ChatError (List String)
  | [] => .ok []
  | m :: rest =>
    if casts_vote ids m then
      match m.«from» with
      | none => .error .malformedMessage
      | some u =>
        match collect_votes ids rest with
        | .error e => .error e
        | .ok us => .ok (u :: us)
    else
      collect_votes ids rest

/-- Increment the count of `u` in an association list, appending a fresh
entry when absent — the counting behaviour of `collections.Counter`,
which keeps keys in first-insertion order. -/
def bump (u : String) : List (String × Nat) → List (String × Nat)
  | [] => [(u, 1)]
  | (v, c) :: rest => if v = u then (v, c + 1) :: rest else (v, c) :: bump u rest

/-- `Counter(users)`: counts per sender in first-occurrence order. -/
def count_votes (users : List String) : List (String × Nat) :=
  users.foldl (fun acc u => bump u acc) []

/-- The descending-count order `Counter.most_common` sorts by.  The tie
order among equal counts is implementation-defined (§3 of the spec). -/
def count_ge (a b : String × Nat) : Prop := b.2 ≤ a.2

instance : DecidableRel count_ge := fun a b => Nat.decLe b.2 a.2

instance : IsTotal (String × Nat) count_ge := ⟨fun a b => Nat.le_total b.2 a.2⟩

instance : IsTrans (String × Nat) count_ge :=
  ⟨fun _ _ _ h1 h2 => Nat.le_trans h2 h1⟩

/-- `ChatStatistics.get_top_users` (stats.py lines 58–89).  `st` is the
external `sent_tokenize`.  The result pairs
`dict(Counter(users).most_common(top_n))` — modelled as the ordered
association list obtained by sorting counts descending and truncating —
with the chat messages as mutated by the index-building loop. -/
def get_top_users (st : String → List String) (chat : List Message)
    (top_n : Nat) : Except ChatError (List (String × Nat) × List Message) :=
  match build_question_index st chat with
  | .error e => .error e
  | .ok (ids, chat') =>
    match collect_votes ids chat' with
    | .error e => .error e
    | .ok users =>
      .ok (((count_votes users).insertionSort count_ge).take top_n, chat')

/-- Drop leading and trailing whitespace from a character list — the
model of Python's `str.strip` used on each stopword line (stats.py line
32). -/
def strip_chars (cs : List Char) : List Char :=
  ((cs.dropWhile Char.isWhitespace).reverse.dropWhile Char.isWhitespace).reverse

/-- Python `str.strip`, modelled character-wise. -/
def strip (s : String) : String := String.mk (strip_chars s.data)

/-- The stopword loading of `__init__` (stats.py lines 31–33): strip
each line, then normalize each entry with the analyzer's normalizer
`nrm`; the resulting `set` is modelled as a list used only through
membership. -/
def load_stop_words (nrm : String → String) (ln : List String) : List String :=
  ln.map (fun l => nrm (strip l))

/-- `' '.join(tokens)` (stats.py line 109). -/
def join_with_space : List String → String
  | [] => ""
  | [t] => t
  | t :: rest => t ++ " " ++ join_with_space rest

/-- The per-message token pipeline of `generate_word_cloud` (stats.py
lines 107–108): `word_tokenize` the text, then keep the tokens that are
not in the stopword set.  The membership test compares the raw token —
no normalization is applied to it first. -/
def msg_tokens (wt : String → List String) (sw : List String)
    (s : String) : List String :=
  (wt s).filter (fun t => !(sw.contains t))

/-- Whether a message's text is a segmented sequence. -/
def is_segmented (m : Message) : Bool :=
  match m.text with
  | some (.segmented _) => true
  | _ => false

/-- The loop of `generate_word_cloud` accumulating `text_content`
(stats.py lines 103–109): only messages whose `text` value is exactly a
string contribute (`type(msg['text']) is str`); each contributes a
leading space and its space-joined surviving tokens.  A missing `text`
key raises `KeyError`; any present non-string shape — segmented or
otherwise — is skipped without error. -/
def word_cloud_text (wt : String → List String) (sw : List String) :
    List Message → Except ChatError String
  | [] => .ok ""
  | m :: rest =>
    match m.text with
    | none => .error .malformedMessage
    | some (.plain s) =>
      match word_cloud_text wt sw rest with
      | .error e => .error e
      | .ok b => .ok (" " ++ join_with_space (msg_tokens wt sw s) ++ b)
    | some _ => word_cloud_text wt sw rest

/-- The option record `generate_word_cloud` passes to the `WordCloud`
constructor (stats.py lines 118–123). -/
structure RenderOptions where
  font_path : String
  background_color : String
  max_font_size : Nat
  width : Nat
  height : Nat
deriving DecidableEq

/-- The renderer invocation `generate_word_cloud` performs: the
constructor options, the text handed to `.generate`, and the file the
image is written to. -/
structure WordCloudCall where
  options : RenderOptions
  text : String
  out_file : String
deriving DecidableEq

set_option linter.unusedVariables false in
/-- `ChatStatistics.generate_word_cloud` (stats.py lines 91–126).  `wt`
is the external `word_tokenize`, `nrm` the normalizer, `rsh`
`arabic_reshaper.reshape`, `disp` `bidi.get_display`; `data_dir` stands
for the module-level `DATA_DIR`.  The `width`, `height` and
`max_font_size` parameters of the Python signature are accepted but
never used: the `WordCloud` call hardcodes `max_font_size=60, width=450,
height=250`. -/
def generate_word_cloud (wt : String → List String)
    (nrm rsh disp : String → String) (sw : List String)
    (chat : List Message) (data_dir output_dir : String)
    (width height max_font_size : Nat) : Except ChatError WordCloudCall :=
  match word_cloud_text wt sw chat with
  | .error e => .error e
  | .ok blob =>
    .ok { options := { font_path := data_dir ++ "/./BHoma.ttf",
                       background_color := "white",
                       max_font_size := 60, width := 450, height := 250 },
          text := disp (rsh (nrm blob)),
          out_file := output_dir ++ "/wordcloud.png" }

/-- Split a character list on the space character (parts may be
empty). -/
def split_on_space : List Char → List (List Char)
  | [] => [[]]
  | c :: rest =>
    if c = ' ' then [] :: split_on_space rest
    else
      match split_on_space rest with
      | [] => [[c]]
      | t :: ts => (c :: t) :: ts

/-- The space-separated tokens of a rendered text blob (used to state
what tokens the blob handed to the renderer contains). -/
def blob_tokens (s : String) : List String :=
  ((split_on_space s.data).map String.mk).filter (fun t => !(t == ""))

/-- A word tokenizer for concrete evaluations: the whole text as one
token. -/
def wt1 : String → List String := fun s => [s]

/-- A concrete normalizer for evaluations: maps the string `"a"` to
`"A"` and leaves everything else alone. -/
def nrm0 : String → String := fun s => if s = "a" then "A" else s

/-- The stopword set loaded through `nrm0` from the single line `a`. -/
def sw0 : List String := load_stop_words nrm0 ["a"]

/-- A message whose text is the raw token `a`. -/
def msgA : Message := ⟨1, some "A", none, some (.plain "a")⟩

/-- A chat with one segmented message carrying a question mark — the
scenario of §8 of the spec. -/
def chatSeg : List Message :=
  [⟨1, some "A", none, some (.segmented [.obj (some "weather?")])⟩]

/-- `chatSeg` after in-place text rebuilding. -/
def chatSegR : List Message := [⟨1, some "A", none, some (.plain "weather?")⟩]

/-- The two-message scenario of §8 of the spec: `A` asks a question and
`B` replies to it. -/
def chatTop : List Message :=
  [⟨1, some "A", none, some (.plain "Is this true?")⟩,
   ⟨2, some "B", some 1, some (.plain "yes")⟩]

/-- A chat with one question message and one non-question message. -/
def chatIdx : List Message :=
  [⟨1, some "A", none, some (.plain "yes?")⟩,
   ⟨2, some "B", none, some (.plain "no")⟩]

/-- A chat with one segmented question whose `reply_to_message_id` is
the falsy id `0`. -/
def chatMut : List Message :=
  [⟨1, some "A", some 0, some (.segmented [.str "hi?", .obj none])⟩]

/-- `chatMut` after in-place text rebuilding. -/
def chatMutR : List Message := [⟨1, some "A", some 0, some (.plain "hi?")⟩]

/-- A chat whose only message replies to the non-existent id `99`. -/
def chatDangle : List Message := [⟨1, some "A", some 99, some (.plain "x?")⟩]

/-- A chat whose only message has no `text` key. -/
def chatNoText : List Message := [⟨1, some "A", none, none⟩]

/-- A message replying to a question but carrying no `from` key. -/
def msgNoFrom : Message := ⟨2, none, some 1, some (.plain "ok")⟩

/-- A chat where a reply to a question has no `from` key. -/
def chatNoFrom : List Message :=
  [⟨1, some "A", none, some (.plain "x?")⟩, msgNoFrom]

theorem rebuild_msg_loop_eq (subs : List SubMsg) :
    ∀ acc, rebuild_msg_loop acc subs = acc ++ rebuild_spec subs := by
  induction subs with
  | nil => intro acc; simp [rebuild_msg_loop, rebuild_spec]
  | cons sm rest ih =>
    intro acc
    cases sm with
    | str s =>
      simp [rebuild_msg_loop, rebuild_spec, sub_msg_contrib, ih,
        String.append_assoc]
    | obj t =>
      cases t with
      | none =>
        simp [rebuild_msg_loop, rebuild_spec, sub_msg_contrib, ih]
      | some t =>
        simp [rebuild_msg_loop, rebuild_spec, sub_msg_contrib, ih,
          String.append_assoc]

/-- Claim C9: `rebuild_msg` returns the in-order concatenation of each
string element taken verbatim and each record element's `text` value,
skipping every other element without error; in particular
`rebuild_msg [{"text": "a"}, "b", {"other": 1}, "c"] = "abc"`. -/
theorem rebuild_msg_concat_spec :
    (∀ subs : List SubMsg, rebuild_msg subs = rebuild_spec subs) ∧
    rebuild_msg [.obj (some "a"), .str "b", .obj none, .str "c"] = "abc" := by
  constructor
  · intro subs
    rw [rebuild_msg, rebuild_msg_loop_eq, String.empty_append]
  · rfl

theorem question_sentence_scan_true (l : List String) :
    question_sentence_scan l = true := by
  induction l with
  | nil => rfl
  | cons s rest ih =>
    unfold question_sentence_scan
    split <;> exact ih

/-- Claim C1: for every message record whose text field is present and of
a recognized shape — whatever its content, including text with no
question mark in any sentence, and for any sentence tokenizer — the
standalone check `msg_has_question` returns `true`. -/
theorem msg_has_question_always_true (st : String → List String)
    (m : Message) (h1 : m.text ≠ none) (h2 : m.text ≠ some .badShape) :
    msg_has_question st m = .ok (true, rebuild_step m) := by
  match hm : m.text with
  | none => exact absurd hm h1
  | some .badShape => exact absurd hm h2
  | some (.plain s) =>
    simp [msg_has_question, rebuild_step, hm, question_sentence_scan_true]
  | some (.segmented subs) =>
    simp [msg_has_question, rebuild_step, hm, question_sentence_scan_true]

theorem msg_has_question_always_true_witness :
    msgPlainNoQ.text ≠ none ∧ msgPlainNoQ.text ≠ some .badShape ∧
      msg_has_question st1 msgPlainNoQ = .ok (true, rebuild_step msgPlainNoQ) :=
  ⟨by decide, by decide,
    msg_has_question_always_true st1 msgPlainNoQ (by decide) (by decide)⟩

theorem chat_error_unique (e : ChatError) : e = .malformedMessage := by
  cases e; rfl

theorem question_scan_ok (st : String → List String) (m : Message)
    {m' : Message} {q : Bool} (h : question_scan st m = .ok (m', q)) :
    m' = rebuild_step m ∧ q = (st (msg_text_str m)).any sentence_has_q := by
  cases htext : m.text with
  | none => simp [question_scan, htext] at h
  | some t =>
    cases t with
    | plain s =>
      simp only [question_scan, htext, Except.ok.injEq, Prod.mk.injEq] at h
      obtain ⟨h1, h2⟩ := h
      subst h1
      exact ⟨by simp [rebuild_step, htext], by simp [msg_text_str, htext, ← h2]⟩
    | segmented subs =>
      simp only [question_scan, htext, Except.ok.injEq, Prod.mk.injEq] at h
      obtain ⟨h1, h2⟩ := h
      subst h1
      exact ⟨by simp [rebuild_step, htext], by simp [msg_text_str, htext, ← h2]⟩
    | badShape => simp [question_scan, htext] at h

theorem question_scan_err (st : String → List String) (m : Message)
    (h : m.text = none ∨ m.text = some .badShape) :
    question_scan st m = .error .malformedMessage := by
  cases h with
  | inl h => simp [question_scan, h]
  | inr h => simp [question_scan, h]

theorem build_question_index_ok_shape (st : String → List String) :
    ∀ chat ids chat', build_question_index st chat = .ok (ids, chat') →
      chat' = chat.map rebuild_step := by
  intro chat
  induction chat with
  | nil =>
    intro ids chat' h
    simp only [build_question_index, Except.ok.injEq, Prod.mk.injEq] at h
    simp [← h.2]
  | cons m rest ih =>
    intro ids chat' h
    cases hq : question_scan st m with
    | error e => simp [build_question_index, hq] at h
    | ok p =>
      obtain ⟨m', q⟩ := p
      cases hr : build_question_index st rest with
      | error e => simp [build_question_index, hq, hr] at h
      | ok pr =>
        obtain ⟨ids0, rest'⟩ := pr
        simp only [build_question_index, hq, hr, Except.ok.injEq,
          Prod.mk.injEq] at h
        rw [← h.2, List.map_cons, (question_scan_ok st m hq).1,
          ih ids0 rest' hr]

theorem build_question_index_flags (st : String → List String) :
    ∀ chat ids chat' m, build_question_index st chat = .ok (ids, chat') →
      m ∈ chat → (st (msg_text_str m)).any sentence_has_q = true →
      m.id ∈ ids := by
  intro chat
  induction chat with
  | nil => intro ids chat' m _ hm; exact absurd hm (List.not_mem_nil m)
  | cons m0 rest ih =>
    intro ids chat' m h hm hq
    cases hs : question_scan st m0 with
    | error e => simp [build_question_index, hs] at h
    | ok p =>
      obtain ⟨m0', q0⟩ := p
      cases hr : build_question_index st rest with
      | error e => simp [build_question_index, hs, hr] at h
      | ok pr =>
        obtain ⟨ids0, rest'⟩ := pr
        simp only [build_question_index, hs, hr, Except.ok.injEq,
          Prod.mk.injEq] at h
        cases List.mem_cons.mp hm with
        | inl hhead =>
          subst hhead
          have hq0 : q0 = true := by
            rw [(question_scan_ok st m hs).2]; exact hq
          rw [← h.1, hq0]
          simp
        | inr htail =>
          have : m.id ∈ ids0 := ih ids0 rest' m hr htail hq
          rw [← h.1]
          cases q0 <;> simp [this]

theorem build_question_index_flagged_mem (st : String → List String) :
    ∀ chat ids chat' i, build_question_index st chat = .ok (ids, chat') →
      i ∈ ids →
      ∃ m ∈ chat, m.id = i ∧ (st (msg_text_str m)).any sentence_has_q = true := by
  intro chat
  induction chat with
  | nil =>
    intro ids chat' i h hi
    simp only [build_question_index, Except.ok.injEq, Prod.mk.injEq] at h
    rw [← h.1] at hi
    exact absurd hi (List.not_mem_nil i)
  | cons m0 rest ih =>
    intro ids chat' i h hi
    cases hs : question_scan st m0 with
    | error e => simp [build_question_index, hs] at h
    | ok p =>
      obtain ⟨m0', q0⟩ := p
      cases hr : build_question_index st rest with
      | error e => simp [build_question_index, hs, hr] at h
      | ok pr =>
        obtain ⟨ids0, rest'⟩ := pr
        simp only [build_question_index, hs, hr, Except.ok.injEq,
          Prod.mk.injEq] at h
        rw [← h.1] at hi
        cases hq0 : q0 with
        | false =>
          rw [hq0] at hi
          simp only [if_neg Bool.false_ne_true] at hi
          obtain ⟨m, hmem, hmid, hmq⟩ := ih ids0 rest' i hr hi
          exact ⟨m, List.mem_cons_of_mem m0 hmem, hmid, hmq⟩
        | true =>
          rw [hq0] at hi
          simp only [if_pos rfl] at hi
          cases List.mem_cons.mp hi with
          | inl hid =>
            refine ⟨m0, List.mem_cons_self m0 rest, hid.symm, ?_⟩
            rw [← (question_scan_ok st m0 hs).2, hq0]
          | inr htail =>
            obtain ⟨m, hmem, hmid, hmq⟩ := ih ids0 rest' i hr htail
            exact ⟨m, List.mem_cons_of_mem m0 hmem, hmid, hmq⟩

theorem build_question_index_err (st : String → List String) :
    ∀ chat m, m ∈ chat → (m.text = none ∨ m.text = some .badShape) →
      build_question_index st chat = .error .malformedMessage := by
  intro chat
  induction chat with
  | nil => intro m hm; exact absurd hm (List.not_mem_nil m)
  | cons m0 rest ih =>
    intro m hm hbad
    cases List.mem_cons.mp hm with
    | inl hhead =>
      subst hhead
      simp [build_question_index, question_scan_err st m hbad]
    | inr htail =>
      cases hs : question_scan st m0 with
      | error e =>
        simp [build_question_index, hs, chat_error_unique e]
      | ok p =>
        obtain ⟨m0', q0⟩ := p
        simp [build_question_index, hs, ih m htail hbad]

theorem collect_votes_err (ids : List Nat) :
    ∀ l m, m ∈ l → casts_vote ids m = true → m.«from» = none →
      collect_votes ids l = .error .malformedMessage := by
  intro l
  induction l with
  | nil => intro m hm; exact absurd hm (List.not_mem_nil m)
  | cons m0 rest ih =>
    intro m hm hc hf
    cases List.mem_cons.mp hm with
    | inl hhead =>
      subst hhead
      simp [collect_votes, hc, hf]
    | inr htail =>
      by_cases hc0 : casts_vote ids m0 = true
      · cases hf0 : m0.«from» with
        | none => simp [collect_votes, hc0, hf0]
        | some u =>
          simp [collect_votes, hc0, hf0, ih m htail hc hf]
      · simp only [Bool.not_eq_true] at hc0
        simp [collect_votes, hc0, ih m htail hc hf]

theorem replies_to_iff (m : Message) (r : Nat) :
    replies_to m r = true ↔ m.reply_to_message_id = some r := by
  simp [replies_to]

theorem collect_votes_filter_dangling (ids : List Nat) (r : Nat)
    (hr : ids.contains r = false) :
    ∀ l, collect_votes ids (l.filter (fun m => !(replies_to m r)))
      = collect_votes ids l := by
  intro l
  induction l with
  | nil => rfl
  | cons m0 rest ih =>
    by_cases h0 : replies_to m0 r = true
    · have hrep : m0.reply_to_message_id = some r := (replies_to_iff m0 r).mp h0
      have hc : casts_vote ids m0 = false := by
        simp only [casts_vote, hrep, hr, Bool.and_false]
      simp [List.filter_cons, h0, collect_votes, hc, ih]
    · simp only [Bool.not_eq_true] at h0
      by_cases hc0 : casts_vote ids m0 = true
      · cases hf0 : m0.«from» with
        | none => simp [List.filter_cons, h0, collect_votes, hc0, hf0]
        | some u =>
          simp [List.filter_cons, h0, collect_votes, hc0, hf0, ih]
      · simp only [Bool.not_eq_true] at hc0
        simp [List.filter_cons, h0, collect_votes, hc0, ih]

theorem word_cloud_text_filter_seg (wt : String → List String)
    (sw : List String) :
    ∀ chat, word_cloud_text wt sw (chat.filter (fun m => !(is_segmented m)))
      = word_cloud_text wt sw chat := by
  intro chat
  induction chat with
  | nil => rfl
  | cons m rest ih =>
    cases htext : m.text with
    | none =>
      have hseg : is_segmented m = false := by simp [is_segmented, htext]
      simp [List.filter_cons, hseg, word_cloud_text, htext]
    | some t =>
      cases t with
      | plain s =>
        have hseg : is_segmented m = false := by simp [is_segmented, htext]
        simp [List.filter_cons, hseg, word_cloud_text, htext, ih]
      | segmented subs =>
        have hseg : is_segmented m = true := by simp [is_segmented, htext]
        simp [List.filter_cons, hseg, word_cloud_text, htext, ih]
      | badShape =>
        have hseg : is_segmented m = false := by simp [is_segmented, htext]
        simp [List.filter_cons, hseg, word_cloud_text, htext, ih]

theorem get_top_users_ok_inv (st : String → List String)
    (chat : List Message) (k : Nat) (res : List (String × Nat))
    (chat' : List Message) (h : get_top_users st chat k = .ok (res, chat')) :
    ∃ ids users, build_question_index st chat = .ok (ids, chat')
      ∧ collect_votes ids chat' = .ok users
      ∧ res = ((count_votes users).insertionSort count_ge).take k := by
  cases hb : build_question_index st chat with
  | error e => simp [get_top_users, hb] at h
  | ok p =>
    obtain ⟨ids, chatb⟩ := p
    cases hv : collect_votes ids chatb with
    | error e => simp [get_top_users, hb, hv] at h
    | ok users =>
      simp only [get_top_users, hb, hv, Except.ok.injEq, Prod.mk.injEq] at h
      obtain ⟨hres, hchat⟩ := h
      subst hchat
      exact ⟨ids, users, rfl, hv, hres.symm⟩

/-- Claim C6: in the question index built by `get_top_users`, a message
id is mapped to `true` exactly when some message carrying that id has a
sentence of its (rebuilt) text containing `?` or `؟`; an id whose
messages have zero sentences or no question mark in any sentence is
absent, and absent ids default to `false`. -/
theorem question_index_spec (st : String → List String)
    (chat : List Message) (ids : List Nat) (chat' : List Message)
    (h : build_question_index st chat = .ok (ids, chat')) :
    ∀ i, i ∈ ids ↔
      ∃ m ∈ chat, m.id = i ∧ (st (msg_text_str m)).any sentence_has_q = true := by
  intro i
  constructor
  · intro hi
    exact build_question_index_flagged_mem st chat ids chat' i h hi
  · rintro ⟨m, hm, hid, hq⟩
    rw [← hid]
    exact build_question_index_flags st chat ids chat' m h hm hq

theorem question_index_spec_witness :
    build_question_index st1 chatIdx = .ok ([1], chatIdx) ∧
      ((2 : Nat) ∈ ([1] : List Nat) ↔
        ∃ m ∈ chatIdx, m.id = 2 ∧
          (st1 (msg_text_str m)).any sentence_has_q = true) :=
  ⟨by rfl, question_index_spec st1 chatIdx [1] chatIdx (by rfl) 2⟩

/-- Claim C7: for every chat export and non-negative `k`,
`get_top_users(top_n := k)` returns at most `k` entries, with counts
non-increasing in iteration order; on a chat with zero messages it
returns the empty mapping. -/
theorem get_top_users_shape (st : String → List String)
    (chat : List Message) (k : Nat) (res : List (String × Nat))
    (chat' : List Message) (h : get_top_users st chat k = .ok (res, chat')) :
    res.length ≤ k ∧ List.Pairwise count_ge res ∧ (chat = [] → res = []) := by
  obtain ⟨ids, users, hb, hv, hres⟩ := get_top_users_ok_inv st chat k res chat' h
  subst hres
  refine ⟨List.length_take_le k _, ?_, ?_⟩
  · exact (List.sorted_insertionSort count_ge (count_votes users)).sublist
      (List.take_sublist k _)
  · intro hchat
    subst hchat
    simp only [build_question_index, Except.ok.injEq, Prod.mk.injEq] at hb
    obtain ⟨hids, hchat'⟩ := hb
    rw [← hids, ← hchat'] at hv
    simp only [collect_votes, Except.ok.injEq] at hv
    rw [← hv]
    simp [count_votes, List.insertionSort]

theorem get_top_users_shape_witness :
    get_top_users st1 chatTop 10 = .ok ([("B", 1)], chatTop) ∧
      ([("B", 1)] : List (String × Nat)).length ≤ 10 ∧
      List.Pairwise count_ge [("B", 1)] ∧
      (chatTop = [] → [("B", 1)] = ([] : List (String × Nat))) := by
  refine ⟨by rfl, ?_⟩
  exact get_top_users_shape st1 chatTop 10 [("B", 1)] chatTop (by rfl)

/-- Claim C8: a message whose `reply_to_message_id` points at an id no
message in the export carries contributes no vote: dropping all such
messages from the vote-collection pass leaves the collected votes — and
hence the counts `get_top_users` returns — unchanged. -/
theorem dangling_reply_no_vote (st : String → List String)
    (chat : List Message) (ids : List Nat) (chat' : List Message) (r : Nat)
    (h : build_question_index st chat = .ok (ids, chat'))
    (hd : ∀ m2 ∈ chat, m2.id ≠ r) :
    collect_votes ids (chat'.filter (fun m => !(replies_to m r)))
      = collect_votes ids chat' := by
  have hr : ids.contains r = false := by
    cases hcon : ids.contains r with
    | false => rfl
    | true =>
      have hmem : r ∈ ids := by
        rw [List.contains] at hcon
        exact List.elem_iff.mp hcon
      obtain ⟨m, hm, hid, _⟩ :=
        build_question_index_flagged_mem st chat ids chat' r h hmem
      exact absurd hid (hd m hm)
  exact collect_votes_filter_dangling ids r hr chat'

theorem dangling_reply_no_vote_witness :
    build_question_index st1 chatDangle = .ok ([1], chatDangle) ∧
      (∀ m2 ∈ chatDangle, m2.id ≠ 99) ∧
      collect_votes [1] (chatDangle.filter (fun m => !(replies_to m 99)))
        = collect_votes [1] chatDangle :=
  ⟨by rfl, by decide,
    dangling_reply_no_vote st1 chatDangle [1] chatDangle 99 (by rfl) (by decide)⟩

/-- Claim C10: `get_top_users` fails with the malformed-message error —
returning no partial result — when any message is missing its `text`
key or has text of an unrecognized shape, and likewise when a message
that qualifies as a vote (its reply target is flagged as a question) is
missing its `from` key. -/
theorem get_top_users_malformed_error :
    (∀ (st : String → List String) (chat : List Message) (k : Nat)
       (m : Message), m ∈ chat →
       (m.text = none ∨ m.text = some .badShape) →
       get_top_users st chat k = .error .malformedMessage)
    ∧ (∀ (st : String → List String) (chat : List Message) (k : Nat)
       (ids : List Nat) (chat' : List Message) (m : Message),
       build_question_index st chat = .ok (ids, chat') →
       m ∈ chat' → casts_vote ids m = true → m.«from» = none →
       get_top_users st chat k = .error .malformedMessage) := by
  constructor
  · intro st chat k m hm hbad
    simp [get_top_users, build_question_index_err st chat m hm hbad]
  · intro st chat k ids chat' m hb hm hc hf
    simp [get_top_users, hb, collect_votes_err ids chat' m hm hc hf]

theorem get_top_users_malformed_error_witness :
    ((⟨1, some "A", none, none⟩ : Message) ∈ chatNoText ∧
      get_top_users st1 chatNoText 5 = .error .malformedMessage) ∧
    (build_question_index st1 chatNoFrom = .ok ([1], chatNoFrom) ∧
      msgNoFrom ∈ chatNoFrom ∧ casts_vote [1] msgNoFrom = true ∧
      msgNoFrom.«from» = none ∧
      get_top_users st1 chatNoFrom 7 = .error .malformedMessage) :=
  ⟨⟨by decide,
    get_top_users_malformed_error.1 st1 chatNoText 5
      (⟨1, some "A", none, none⟩ : Message) (by decide) (Or.inl rfl)⟩,
   ⟨by rfl, by decide, by rfl, rfl,
    get_top_users_malformed_error.2 st1 chatNoFrom 7 [1] chatNoFrom msgNoFrom
      (by rfl) (by decide) (by rfl) rfl⟩⟩

/-- Claim C4: `get_top_users` mutates the loaded chat data in place:
each message whose text is not a string has its text overwritten with
the `rebuild_msg` result, every other field unchanged; as a consequence
a `generate_word_cloud` text built after `get_top_users` includes the
rebuilt text of a formerly segmented message, whereas one built before
includes nothing from it. -/
theorem get_top_users_mutates_in_place (st : String → List String)
    (chat : List Message) (k : Nat) (res : List (String × Nat))
    (chat' : List Message) (h : get_top_users st chat k = .ok (res, chat')) :
    chat' = chat.map rebuild_step
    ∧ (∀ m subs, m.text = some (.segmented subs) →
        rebuild_step m = { m with text := some (.plain (rebuild_msg subs)) })
    ∧ (∀ m : Message, (rebuild_step m).id = m.id
        ∧ (rebuild_step m).«from» = m.«from»
        ∧ (rebuild_step m).reply_to_message_id = m.reply_to_message_id)
    ∧ (∀ (wt : String → List String) (sw : List String) (m : Message)
        (subs : List SubMsg), m.text = some (.segmented subs) →
        word_cloud_text wt sw [m] = .ok ""
        ∧ word_cloud_text wt sw [rebuild_step m]
            = .ok (" " ++ join_with_space (msg_tokens wt sw (rebuild_msg subs)))) := by
  obtain ⟨ids, users, hb, hv, hres⟩ := get_top_users_ok_inv st chat k res chat' h
  refine ⟨build_question_index_ok_shape st chat ids chat' hb, ?_, ?_, ?_⟩
  · intro m subs htext
    simp [rebuild_step, htext]
  · intro m
    cases htext : m.text with
    | none => simp [rebuild_step, htext]
    | some t =>
      cases t with
      | plain s => simp [rebuild_step, htext]
      | segmented subs => simp [rebuild_step, htext]
      | badShape => simp [rebuild_step, htext]
  · intro wt sw m subs htext
    have hstep : (rebuild_step m).text = some (.plain (rebuild_msg subs)) := by
      simp [rebuild_step, htext]
    constructor
    · simp [word_cloud_text, htext]
    · simp [word_cloud_text, hstep]

theorem get_top_users_mutates_in_place_witness :
    get_top_users st1 chatMut 3 = .ok ([], chatMutR)
    ∧ chatMutR = chatMut.map rebuild_step
    ∧ word_cloud_text wt1 sw0 chatMut = .ok ""
    ∧ word_cloud_text wt1 sw0 chatMutR
        = .ok (" " ++ join_with_space
            (msg_tokens wt1 sw0 (rebuild_msg [.str "hi?", .obj none]))) := by
  have h : get_top_users st1 chatMut 3 = .ok ([], chatMutR) := by rfl
  have hall := get_top_users_mutates_in_place st1 chatMut 3 [] chatMutR h
  have hseg := hall.2.2.2 wt1 sw0
    (⟨1, some "A", some 0, some (.segmented [.str "hi?", .obj none])⟩ : Message)
    [.str "hi?", .obj none] rfl
  exact ⟨h, hall.1, hseg.1, hseg.2⟩

/-- Claim C3: a message whose text is a segmented sequence contributes
nothing to the word-cloud text `generate_word_cloud` builds from the
loaded chat data, while a segmented message containing a question mark
is still flagged as a question by the index `get_top_users` builds. -/
theorem segmented_skipped_but_indexed
    (wt st : String → List String) (sw : List String) (chat : List Message) :
    (word_cloud_text wt sw (chat.filter (fun m => !(is_segmented m)))
       = word_cloud_text wt sw chat)
    ∧ (∀ ids chat' m subs, build_question_index st chat = .ok (ids, chat') →
        m ∈ chat → m.text = some (.segmented subs) →
        (st (rebuild_msg subs)).any sentence_has_q = true →
        m.id ∈ ids) := by
  constructor
  · exact word_cloud_text_filter_seg wt sw chat
  · intro ids chat' m subs hb hm htext hq
    apply build_question_index_flags st chat ids chat' m hb hm
    simpa [msg_text_str, htext] using hq

theorem segmented_skipped_but_indexed_witness :
    (word_cloud_text wt1 sw0 (chatSeg.filter (fun m => !(is_segmented m)))
       = word_cloud_text wt1 sw0 chatSeg)
    ∧ build_question_index st1 chatSeg = .ok ([1], chatSegR)
    ∧ (1 : Nat) ∈ ([1] : List Nat) :=
  ⟨(segmented_skipped_but_indexed wt1 st1 sw0 chatSeg).1,
   by rfl,
   (segmented_skipped_but_indexed wt1 st1 sw0 chatSeg).2 [1] chatSegR
     (⟨1, some "A", none, some (.segmented [.obj (some "weather?")])⟩ : Message)
     [.obj (some "weather?")] (by rfl) (by decide) rfl (by rfl)⟩

/-- Claim C5: whatever `width`, `height` and `max_font_size` the caller
passes, `generate_word_cloud` renders with the fixed options width 450,
height 250 and max font size 60. -/
theorem generate_word_cloud_fixed_options
    (wt : String → List String) (nrm rsh disp : String → String)
    (sw : List String) (chat : List Message) (dd od : String)
    (w h mfs : Nat) (c : WordCloudCall)
    (hok : generate_word_cloud wt nrm rsh disp sw chat dd od w h mfs = .ok c) :
    c.options.width = 450 ∧ c.options.height = 250
      ∧ c.options.max_font_size = 60 := by
  cases hb : word_cloud_text wt sw chat with
  | error e => simp [generate_word_cloud, hb] at hok
  | ok blob =>
    simp only [generate_word_cloud, hb, Except.ok.injEq] at hok
    refine ⟨?_, ?_, ?_⟩ <;> rw [← hok]

theorem generate_word_cloud_fixed_options_witness :
    generate_word_cloud wt1 id id id sw0 [] "data" "out" 800 600 999
        = .ok ⟨⟨"data/./BHoma.ttf", "white", 60, 450, 250⟩, "",
          "out/wordcloud.png"⟩
    ∧ (⟨⟨"data/./BHoma.ttf", "white", 60, 450, 250⟩, "",
          "out/wordcloud.png"⟩ : WordCloudCall).options.width = 450
    ∧ (⟨⟨"data/./BHoma.ttf", "white", 60, 450, 250⟩, "",
          "out/wordcloud.png"⟩ : WordCloudCall).options.height = 250
    ∧ (⟨⟨"data/./BHoma.ttf", "white", 60, 450, 250⟩, "",
          "out/wordcloud.png"⟩ : WordCloudCall).options.max_font_size = 60 :=
  ⟨by rfl,
    generate_word_cloud_fixed_options wt1 id id id sw0 [] "data" "out"
      800 600 999 _ (by rfl)⟩

/-- Claim C2, counterexample: with the normalizer `nrm0`, the stopword
line `a` loads as the normalized entry `A`, the raw token `a` of
`msgA` survives the filter because it is compared unnormalized, and the
text blob handed to the renderer therefore contains a token whose
normalization equals a stopword entry — refuting the claim that no such
token remains. -/
theorem word_cloud_stopword_normalization_cex :
    (generate_word_cloud wt1 nrm0 id id sw0 [msgA] "data" "out" 800 600 60).map
      (fun c => (blob_tokens c.text).any (fun t => sw0.contains (nrm0 t)))
      = .ok true := by rfl

/-- Claim C2 (amended): the token lists that `generate_word_cloud` joins
into the renderer text contain no token equal — compared raw, without
re-normalization — to an entry of the stopword set; a token whose
normalized form equals a stopword entry may survive the filter. -/
theorem word_cloud_tokens_not_stopwords
    (wt : String → List String) (sw : List String) (s t : String)
    (ht : t ∈ msg_tokens wt sw s) : sw.contains t = false := by
  simp only [msg_tokens, List.mem_filter] at ht
  simpa using ht.2

theorem word_cloud_tokens_not_stopwords_witness :
    "a" ∈ msg_tokens wt1 sw0 "a" ∧ sw0.contains "a" = false :=
  ⟨by decide, word_cloud_tokens_not_stopwords wt1 sw0 "a" "a" (by decide)⟩

end ChatStatistics
